import Mathlib

/-!
Shallow embedding of the agent-messaging core of the construction_planner
repository (src/adk_core/agents/base_agent.py, strategic_client_engagement_agent.py,
site_intelligence_regulatory_compliance_agent.py, src/adk_core/llm_api.py, src/main.py).

Python dictionaries with heterogeneous values are embedded as association
lists over an inductive `Value` type.  Handlers are embedded as pure functions
from a message (plus oracles for the external LLM collaborator, for the
standard-library JSON parser and for the randomized Python hash) to a trace of
effects (log calls, `context.send_message` calls, response-queue puts) together
with an optional uncaught Python exception.  Log-message text and rendered
prompt strings are abbreviated to stable tags; no theorem below depends on
their wording.
-/

/-- Embedding of a Python runtime value as it occurs in the message payloads of
this program.  `vNone` is Python `None`. -/
inductive Value where
  | vNone : Value
  | vStr : String → Value
  | vInt : Int → Value
  | vBool : Bool → Value
  | vList : List Value → Value
  | vDict : List (String × Value) → Value

/-- Python exceptions that the embedded code can raise. -/
inductive PyErr where
  | typeError : PyErr
  | attributeError : PyErr
deriving DecidableEq

/-- Rendering used for `str(e)` on an exception; the handlers interpolate it
into error detail strings. -/
def pyErrStr : PyErr → String
  | .typeError => "unhashable type"
  | .attributeError => "object has no attribute"

/-- Python truthiness (`if x:`) for embedded values. -/
def truthy : Value → Bool
  | .vNone => false
  | .vStr s => !(s == "")
  | .vInt n => !(n == 0)
  | .vBool b => b
  | .vList xs => !xs.isEmpty
  | .vDict kvs => !kvs.isEmpty

/-- Whether a value is hashable in Python: lists and dicts are not. -/
def hashable : Value → Bool
  | .vList _ => false
  | .vDict _ => false
  | _ => true

/-- Lookup with default on an association list embedding a Python dict with
unique keys: `d.get(k, default)`. -/
def pyDictGet (kvs : List (String × Value)) (k : String) (d : Value) : Value :=
  match kvs.find? (fun kv => kv.1 == k) with
  | some kv => kv.2
  | none => d

/-- Python `v.get(k, default)` where `v` is an arbitrary value: raises
`AttributeError` when `v` is not a dict. -/
def valueGet (v : Value) (k : String) (d : Value) : Except PyErr Value :=
  match v with
  | .vDict kvs => .ok (pyDictGet kvs k d)
  | _ => .error .attributeError

/-- Python `v.get(k, default)` where the key is itself a runtime value: raises
`AttributeError` when `v` is not a dict and `TypeError` when the key is
unhashable; a non-string hashable key matches no string key of the dict. -/
def valueGetK (v : Value) (k : Value) (d : Value) : Except PyErr Value :=
  match v with
  | .vDict kvs =>
    if hashable k then
      .ok (match k with
           | .vStr s => pyDictGet kvs s d
           | _ => d)
    else .error .typeError
  | _ => .error .attributeError

/-- Abbreviated `str()` rendering of a value, used only to build prompt and log
strings that feed opaque oracles; no theorem depends on its exact output. -/
def vshow : Value → String
  | .vNone => "None"
  | .vStr s => s
  | .vInt n => toString n
  | .vBool b => cond b "True" "False"
  | .vList _ => "[list]"
  | .vDict _ => "dict(...)"

/-- Modelled from the spec (section 3): the message type enum of the
`google.adk` messaging layer, which is not under src/. -/
inductive MessageType where
  | request : MessageType
  | result : MessageType
deriving DecidableEq

/-- Modelled from the spec (section 3): the immutable message envelope
`Message(sender_id, receiver_id, type, payload)` of the `google.adk` layer,
which is not under src/; the payload is an open key-value structure. -/
structure Message where
  sender_id : String
  receiver_id : String
  type : MessageType
  payload : List (String × Value)

/-- Modelled from the spec (section 3): agent ids are opaque strings, unique
across the registry.  `adk_core/agents/constants.py` (class `AgentRoles`) is
not under src/; the concrete strings below are representative stand-ins whose
exact spelling no theorem depends on, only their distinctness. -/
def AgentRoles.CLIENT_ENGAGEMENT : String := "client_engagement_agent"

/-- Modelled from the spec (section 3): see `AgentRoles.CLIENT_ENGAGEMENT`. -/
def AgentRoles.SITE_INTELLIGENCE : String := "site_intelligence_agent"

/-- Modelled from the spec (section 3): see `AgentRoles.CLIENT_ENGAGEMENT`. -/
def AgentRoles.ARCHITECTURAL_DESIGN : String := "architectural_design_agent"

/-- Severity of a logger call. -/
inductive LogLevel where
  | info : LogLevel
  | warning : LogLevel
  | error : LogLevel
deriving DecidableEq

/-- Observable side effects of the embedded handlers: a logger call (tagged by
an abbreviation of its message), a `context.send_message` call, or a put onto
the response queue for the API bridge. -/
inductive Effect where
  | log : LogLevel → String → Effect
  | sendMsg : Message → Effect
  | putApi : List (String × Value) → Effect

/-- Messages handed to `context.send_message` along a trace, in order. -/
def sentMessages (t : List Effect) : List Message :=
  t.filterMap (fun e => match e with | .sendMsg m => some m | _ => none)

/-- Responses put onto the API response queue along a trace, in order. -/
def putResponses (t : List Effect) : List (List (String × Value)) :=
  t.filterMap (fun e => match e with | .putApi r => some r | _ => none)

/-- ConstructionAgent.send_task_message (base_agent.py lines 43-56): with no
delivery context it only logs an error; otherwise it builds a REQUEST payload
with `task` and `data` keys (`None` data becomes an empty dict), attaches
`original_sender_id` only when that value is truthy, and sends the message. -/
def send_task_message (ctx : Option Unit) (selfId receiverId task_description : String)
    (data : Value) (original_sender_id : Value) : List Effect :=
  match ctx with
  | none => [.log .error "context_not_set_cannot_send"]
  | some _ =>
    let base := [("task", Value.vStr task_description),
                 ("data", match data with | .vNone => Value.vDict [] | d => d)]
    let payload := if truthy original_sender_id
                   then base ++ [("original_sender_id", original_sender_id)]
                   else base
    [.log .info "sending_task",
     .sendMsg ⟨selfId, receiverId, .request, payload⟩]

/-- ConstructionAgent.send_result_message (base_agent.py lines 58-71): with no
delivery context it only logs an error; otherwise it wraps the result data
under a `result` key, attaches `task_id` only when truthy, and sends a RESULT
message. -/
def send_result_message (ctx : Option Unit) (selfId receiverId : String)
    (result_data : Value) (task_id : Option String) : List Effect :=
  match ctx with
  | none => [.log .error "context_not_set_cannot_send_result"]
  | some _ =>
    let payload := [("result", result_data)] ++
      (match task_id with
       | some t => if t == "" then [] else [("task_id", Value.vStr t)]
       | none => [])
    [.log .info "sending_result",
     .sendMsg ⟨selfId, receiverId, .result, payload⟩]

/-- ConstructionAgent.put_response_for_api (base_agent.py lines 73-80): logs
and enqueues one response onto the agent response queue (modelled in traces as
a `putApi` effect; the queue state itself is modelled below). -/
def put_response_for_api (response_data : List (String × Value)) : List Effect :=
  [.log .info "putting_api_response", .putApi response_data]

/-- One response datum travelling through the API bridge queue. -/
abbrev Response := List (String × Value)

/-- State-level view of `put_response_for_api`: `asyncio.Queue.put` appends to
the FIFO queue. -/
def put_response_for_api_q (q : List Response) (r : Response) : List Response :=
  q ++ [r]

/-- ConstructionAgent.get_response_from_api (base_agent.py lines 82-96): waits
for the head of the queue; when the queue is empty through the whole timeout
window (any timeout value), `asyncio.TimeoutError` is caught internally and a
distinguished timeout dict is returned, so the caller never sees an
exception. -/
def get_response_from_api (agentId : String) (timeout : Nat) (q : List Response) :
    Response × List Response :=
  match q with
  | [] => ([("status", Value.vStr "timeout"), ("agent", Value.vStr agentId),
            ("details", Value.vStr "Agent took too long to respond.")], [])
  | r :: rest => (r, rest)

/-- Repeated reads from the bridge queue: `n` successive calls of
`get_response_from_api`, collecting the returned responses. -/
def getResponses (agentId : String) (timeout : Nat) : List Response → Nat → List Response
  | _, 0 => []
  | q, Nat.succ k =>
    let (r, q2) := get_response_from_api agentId timeout q
    r :: getResponses agentId timeout q2 k

/-- Outcome of one call of the underlying Gemini model inside
`LLMApi.generate_text`: a response with content, a response with missing
candidates or parts, or a raised exception (rendered by its message). -/
inductive GenOutcome where
  | content : String → GenOutcome
  | incomplete : GenOutcome
  | exc : String → GenOutcome

/-- LLMApi.generate_text (llm_api.py lines 42-62): total in every case; a
complete model response yields its text, a response missing content yields the
string beginning with Error-colon, and a raised exception is caught and
rendered with the prefix beginning with Error-space. -/
def LLMApi.generate_text (llm : String → GenOutcome) (prompt : String) : String :=
  match llm prompt with
  | .content t => t
  | .incomplete => "Error: Gemini response incomplete."
  | .exc e => "Error generating text: " ++ e

/-- Python `s.startswith(p)`. -/
def pyStartswith (s p : String) : Bool :=
  p.data.isPrefixOf s.data

/-- Result of a FastAPI endpoint call: a JSON body or an HTTPException with a
status code and detail. -/
inductive HttpResult where
  | ok : List (String × Value) → HttpResult
  | httpError : Nat → String → HttpResult

/-- generate_text_endpoint (main.py lines 169-182): missing or empty prompt is
a 400; a generated text starting with Error-colon is a 500; anything else is
returned as a successful `generated_text` body. -/
def generate_text_endpoint (llm : String → GenOutcome)
    (prompt_data : List (String × String)) : HttpResult :=
  match prompt_data.find? (fun kv => kv.1 == "prompt") with
  | none => .httpError 400 "Prompt is required to generate text."
  | some kv =>
    if kv.2 == "" then .httpError 400 "Prompt is required to generate text."
    else
      let text := LLMApi.generate_text llm kv.2
      if pyStartswith text "Error:" then .httpError 500 text
      else .ok [("generated_text", Value.vStr text)]

/-- Python `v == s` for a string literal `s`: true only when `v` is that
string. -/
def vEqStr (v : Value) (s : String) : Bool :=
  match v with
  | .vStr t => t == s
  | _ => false

/-- The one task name recognized by the Strategic Client Engagement Agent
(strategic_client_engagement_agent.py line 42). -/
def ce_recognized_task : String :=
  "Process new client inquiry and gather detailed requirements"

/-- Fallback dict used when the Gemini response is not valid JSON
(strategic_client_engagement_agent.py lines 63-67). -/
def ce_fallback (client_data : Value) : Value :=
  .vDict [("parsed_requirements", client_data),
          ("clarification_needed",
           Value.vStr "Gemini could not parse inquiry, manual review needed."),
          ("suggested_next_steps", Value.vStr "Manual review of client inquiry.")]

/-- Prompt built at strategic_client_engagement_agent.py lines 47-54
(text abbreviated; it only feeds the LLM oracle). -/
def ce_prompt (client_data : Value) : String :=
  "Analyze the following client inquiry for a construction project. Client Inquiry: "
    ++ vshow client_data

/-- Continuation of the guarded body of the client-inquiry branch after the
Gemini response has been parsed (strategic_client_engagement_agent.py lines
69-99): the three `.get` extractions raise AttributeError on a non-dict parsed
response; otherwise the acknowledgment is put for the API, then the project id
is computed from `hash(frozenset(client_data.items()))` (TypeError when some
value of the data dict is unhashable), then `location` and `project_type` are
read from the parsed requirements (AttributeError when those are not a dict),
and finally the site-analysis REQUEST is sent with the envelope sender as
`original_sender_id`. -/
def ce_after_parse (hashFS : List (String × Value) → Int)
    (cd : List (String × Value)) (sender : String) (gparsed : Value) :
    List Effect × Option PyErr :=
  match gparsed with
  | .vDict gk =>
    let parsed_requirements := pyDictGet gk "parsed_requirements" (.vDict cd)
    let clarification_needed := pyDictGet gk "clarification_needed" (.vStr "None")
    let suggested_next_steps :=
      pyDictGet gk "suggested_next_steps" (.vStr "Proceed to site analysis.")
    let response_for_api : List (String × Value) :=
      [("status", Value.vStr "processing_initiated"),
       ("agent", Value.vStr AgentRoles.CLIENT_ENGAGEMENT),
       ("details",
        Value.vStr "Client inquiry processed. Initial data extracted. Workflow initiated."),
       ("parsed_data", parsed_requirements),
       ("clarifications", clarification_needed),
       ("workflow_suggested", suggested_next_steps)]
    let effs1 : List Effect :=
      [.log .info "ce_parsed_requirements", .log .info "ce_clarification_needed",
       .log .info "ce_suggested_next_steps"] ++ put_response_for_api response_for_api
    if List.all cd (fun kv => hashable kv.2) then
      let project_id := "proj_" ++ (toString (hashFS cd)).take 8
      match parsed_requirements with
      | .vDict pk =>
        (effs1 ++
          send_task_message (some ()) AgentRoles.CLIENT_ENGAGEMENT
            AgentRoles.SITE_INTELLIGENCE
            "Analyze site feasibility and regulatory compliance"
            (.vDict [("project_id", Value.vStr project_id),
                     ("location", pyDictGet pk "location" .vNone),
                     ("project_type", pyDictGet pk "project_type" .vNone),
                     ("initial_requirements", parsed_requirements)])
            (.vStr sender), none)
      | _ => (effs1, some .attributeError)
    else (effs1, some .typeError)
  | _ => ([], some .attributeError)

/-- Guarded (`try`) body of the client-inquiry branch
(strategic_client_engagement_agent.py lines 45-99): call Gemini, parse its
response as JSON falling back to `ce_fallback` on a decode error, then
continue with `ce_after_parse`. -/
def ce_try (llm : String → GenOutcome) (jsonLoads : String → Option Value)
    (hashFS : List (String × Value) → Int) (cd : List (String × Value))
    (sender : String) : List Effect × Option PyErr :=
  let gstr := LLMApi.generate_text llm (ce_prompt (.vDict cd))
  match jsonLoads gstr with
  | some v =>
    let after := ce_after_parse hashFS cd sender v
    (Effect.log .info "ce_calling_gemini" :: after.1, after.2)
  | none =>
    let after := ce_after_parse hashFS cd sender (ce_fallback (.vDict cd))
    (Effect.log .info "ce_calling_gemini" :: Effect.log .error "ce_gemini_not_json" :: after.1,
     after.2)

/-- The `except` handler of the client-inquiry branch
(strategic_client_engagement_agent.py lines 101-108): log and put an error
response for the API. -/
def ce_except (e : PyErr) : List Effect :=
  Effect.log .error "ce_error_processing_inquiry" ::
    put_response_for_api
      [("status", Value.vStr "error"),
       ("agent", Value.vStr AgentRoles.CLIENT_ENGAGEMENT),
       ("details", Value.vStr ("Failed to process client inquiry: " ++ pyErrStr e))]

/-- StrategicClientEngagementAgent.on_message
(strategic_client_engagement_agent.py lines 32-120).  The inner
`elif message.type == MessageType.RESULT` of the source sits inside the branch
that already requires `message.type == MessageType.REQUEST`, and is translated
in that same (unreachable) position.  The `logger.info` of line 43 evaluates
`client_data.get(...)`, which raises AttributeError outside the `try` block
when the data field is not a dict; that exception leaves `on_message`. -/
def StrategicClientEngagementAgent.on_message (llm : String → GenOutcome)
    (jsonLoads : String → Option Value) (hashFS : List (String × Value) → Int)
    (msg : Message) : List Effect × Option PyErr :=
  let recv : List Effect := [.log .info "ce_received_message"]
  if msg.type = MessageType.request ∧ msg.receiver_id = AgentRoles.CLIENT_ENGAGEMENT then
    let task := pyDictGet msg.payload "task" .vNone
    let client_data := pyDictGet msg.payload "data" (.vDict [])
    if vEqStr task ce_recognized_task then
      match client_data with
      | .vDict cd =>
        match ce_try llm jsonLoads hashFS cd msg.sender_id with
        | (effs, none) =>
          (recv ++ Effect.log .info "ce_processing_inquiry" :: effs, none)
        | (effs, some e) =>
          (recv ++ Effect.log .info "ce_processing_inquiry" :: (effs ++ ce_except e), none)
      | _ => (recv, some .attributeError)
    else if msg.type = MessageType.result then
      (recv ++ [.log .info "ce_received_result", .log .info "ce_aggregated_result"], none)
    else (recv, none)
  else (recv ++ [.log .warning "ce_unexpected_message"], none)

/-- The one task name recognized by the Site Intelligence agent
(site_intelligence_regulatory_compliance_agent.py line 69). -/
def si_recognized_task : String :=
  "Analyze site feasibility and regulatory compliance"

/-- Mock zoning dataset of the Site Intelligence agent
(site_intelligence_regulatory_compliance_agent.py lines 36-58). -/
def mock_zoning_data : List (String × Value) :=
  [("Suburban Area, London", .vDict
     [("residential", .vDict
        [("allowed_height_m", .vInt 12),
         ("setbacks_m", .vDict [("front", .vInt 5), ("sides", .vInt 3), ("rear", .vInt 7)])]),
      ("commercial", .vDict
        [("allowed_height_m", .vInt 20),
         ("setbacks_m", .vDict [("front", .vInt 3), ("sides", .vInt 1), ("rear", .vInt 5)])]),
      ("max_coverage_percent", .vInt 40),
      ("environmental_risk",
       .vStr "Low (potential for minor soil contamination near old industrial sites)"),
      ("common_building_codes",
       .vStr "UK Building Regulations Part B (Fire Safety), Part M (Access to and use of buildings), Part L (Conservation of fuel and power).")]),
   ("Downtown, New York", .vDict
     [("residential", .vDict
        [("allowed_height_m", .vInt 150),
         ("setbacks_m", .vDict [("front", .vInt 0), ("sides", .vInt 0), ("rear", .vInt 0)])]),
      ("commercial", .vDict
        [("allowed_height_m", .vInt 300),
         ("setbacks_m", .vDict [("front", .vInt 0), ("sides", .vInt 0), ("rear", .vInt 0)])]),
      ("max_coverage_percent", .vInt 100),
      ("environmental_risk",
       .vStr "Medium (urban heat island effect, historical underground infrastructure)"),
      ("common_building_codes", .vStr "NYC Building Code, ADA Compliance.")]),
   ("Rural, California", .vDict
     [("residential", .vDict
        [("allowed_height_m", .vInt 10),
         ("setbacks_m", .vDict [("front", .vInt 10), ("sides", .vInt 5), ("rear", .vInt 10)])]),
      ("commercial", .vDict
        [("allowed_height_m", .vInt 15),
         ("setbacks_m", .vDict [("front", .vInt 8), ("sides", .vInt 4), ("rear", .vInt 8)])]),
      ("max_coverage_percent", .vInt 25),
      ("environmental_risk",
       .vStr "High (wildfire risk, seismic activity, water scarcity, protected species habitats)"),
      ("common_building_codes",
       .vStr "California Building Standards Code (Title 24), Wildland-Urban Interface (WUI) codes.")])]

/-- Fallback dict used when the Gemini regulatory response is not valid JSON
(site_intelligence_regulatory_compliance_agent.py lines 102-106). -/
def si_fallback : Value :=
  .vDict [("summary",
           Value.vStr "Could not parse regulatory summary from AI. Manual review required."),
          ("compliance_challenges",
           .vList [Value.vStr "AI parsing failed or response malformed."]),
          ("recommendations",
           .vList [Value.vStr "Consult local regulations directly for detailed compliance."])]

/-- Prompt built at site_intelligence_regulatory_compliance_agent.py lines
87-94 (text abbreviated; it only feeds the LLM oracle). -/
def si_prompt (location project_type initial_requirements site_info : Value) : String :=
  "Summarize key regulatory constraints for a " ++ vshow location ++ " located project of type "
    ++ vshow project_type ++ " given requirements " ++ vshow initial_requirements
    ++ " and site info " ++ vshow site_info

/-- Continuation of the guarded analysis after the Gemini regulatory response
has been parsed (site_intelligence_regulatory_compliance_agent.py lines
108-145): building the site feasibility report raises AttributeError when the
zoning rules or the parsed response are not dicts; otherwise one RESULT goes to
the Client Engagement agent and one REQUEST goes to the Architectural Design
agent, forwarding the `original_sender_id` taken from the incoming payload. -/
def si_after_parse (project_id location project_type initial_requirements : Value)
    (origSender : Value) (site_info zoning_rules environmental_risk common_codes : Value)
    (gparsed : Value) : List Effect × Option PyErr :=
  match valueGet zoning_rules "allowed_height_m" (.vStr "N/A") with
  | .error e => ([], some e)
  | .ok allowed_height =>
    match valueGet zoning_rules "setbacks_m" (.vDict []) with
    | .error e => ([], some e)
    | .ok setbacks =>
      match valueGet site_info "max_coverage_percent" (.vStr "N/A") with
      | .error e => ([], some e)
      | .ok max_coverage =>
        match valueGet gparsed "summary" (.vStr "N/A") with
        | .error e => ([], some e)
        | .ok summary =>
          match valueGet gparsed "compliance_challenges" (.vList []) with
          | .error e => ([], some e)
          | .ok challenges =>
            match valueGet gparsed "recommendations" (.vList []) with
            | .error e => ([], some e)
            | .ok recommendations =>
                  let site_feasibility_report : Value :=
                    .vDict [("project_id", project_id),
                            ("location", location),
                            ("project_type", project_type),
                            ("status", Value.vStr "initial_analysis_complete"),
                            ("zoning_data", .vDict
                              [("allowed_height_m", allowed_height),
                               ("setbacks_m", setbacks),
                               ("max_coverage_percent", max_coverage)]),
                            ("environmental_risk", environmental_risk),
                            ("common_building_codes", common_codes),
                            ("regulatory_summary_ai", summary),
                            ("compliance_challenges_ai", challenges),
                            ("site_recommendations_ai", recommendations)]
                  (Effect.log .info "si_report_generated" ::
                    (send_result_message (some ()) AgentRoles.SITE_INTELLIGENCE
                      AgentRoles.CLIENT_ENGAGEMENT
                      (.vDict [("message",
                                Value.vStr ("Site analysis complete for "
                                  ++ vshow project_id ++ ".")),
                               ("report_summary", summary)])
                      (some "site_analysis_complete") ++
                     send_task_message (some ()) AgentRoles.SITE_INTELLIGENCE
                      AgentRoles.ARCHITECTURAL_DESIGN
                      "Generate initial architectural concepts based on feasibility"
                      (.vDict [("project_id", project_id),
                               ("site_feasibility_report", site_feasibility_report),
                               ("initial_requirements", initial_requirements)])
                      origSender), none)

/-- Guarded (`try`) body of the site-analysis branch
(site_intelligence_regulatory_compliance_agent.py lines 77-145): look up the
mock zoning data by location (TypeError when the location value is
unhashable), extract zoning rules by project type (TypeError when that value
is unhashable), call Gemini, parse its response as JSON falling back to
`si_fallback` on a decode error, and continue with `si_after_parse`. -/
def si_try (llm : String → GenOutcome) (jsonLoads : String → Option Value)
    (project_id location project_type initial_requirements origSender : Value) :
    List Effect × Option PyErr :=
  match valueGetK (.vDict mock_zoning_data) location
      (pyDictGet mock_zoning_data "Suburban Area, London" .vNone) with
  | .error e => ([], some e)
  | .ok site_info =>
    match valueGetK site_info project_type (.vDict []) with
    | .error e => ([], some e)
    | .ok zoning_rules =>
      match valueGet site_info "environmental_risk" (.vStr "Unknown") with
      | .error e => ([], some e)
      | .ok environmental_risk =>
        match valueGet site_info "common_building_codes"
            (.vStr "Standard building codes apply.") with
        | .error e => ([], some e)
        | .ok common_codes =>
          let gstr := LLMApi.generate_text llm
            (si_prompt location project_type initial_requirements site_info)
          match jsonLoads gstr with
          | some v =>
            let after := si_after_parse project_id location project_type
              initial_requirements origSender site_info zoning_rules
              environmental_risk common_codes v
            (Effect.log .info "si_calling_gemini" :: after.1, after.2)
          | none =>
            let after := si_after_parse project_id location project_type
              initial_requirements origSender site_info zoning_rules
              environmental_risk common_codes si_fallback
            (Effect.log .info "si_calling_gemini" ::
              Effect.log .error "si_gemini_not_json" :: after.1, after.2)

/-- The `except` handler of the site-analysis branch
(site_intelligence_regulatory_compliance_agent.py lines 147-155): log and send
one error RESULT back to the Client Engagement agent; no REQUEST is
forwarded. -/
def si_except (e : PyErr) (project_id : Value) : List Effect :=
  Effect.log .error "si_error_during_analysis" ::
    send_result_message (some ()) AgentRoles.SITE_INTELLIGENCE
      AgentRoles.CLIENT_ENGAGEMENT
      (.vDict [("status", Value.vStr "error"),
               ("agent", Value.vStr AgentRoles.SITE_INTELLIGENCE),
               ("details",
                Value.vStr ("Failed site analysis for " ++ vshow project_id ++ ": "
                  ++ pyErrStr e))])
      (some "site_analysis_failed")

/-- SiteIntelligenceRegulatoryComplianceAgent.on_message
(site_intelligence_regulatory_compliance_agent.py lines 60-163).  The four
field extractions of lines 70-73 sit before the `try` block, so a non-dict
data field raises AttributeError out of `on_message`; faults inside the
analysis are caught and reported as an error RESULT. -/
def SiteIntelligenceRegulatoryComplianceAgent.on_message (llm : String → GenOutcome)
    (jsonLoads : String → Option Value) (msg : Message) : List Effect × Option PyErr :=
  let recv : List Effect := [.log .info "si_received_message"]
  if msg.type = MessageType.request ∧ msg.receiver_id = AgentRoles.SITE_INTELLIGENCE then
    let task := pyDictGet msg.payload "task" .vNone
    let dataV := pyDictGet msg.payload "data" (.vDict [])
    let origSender := pyDictGet msg.payload "original_sender_id" .vNone
    if vEqStr task si_recognized_task then
      match dataV with
      | .vDict d =>
        let project_id := pyDictGet d "project_id" .vNone
        let location := pyDictGet d "location" .vNone
        let project_type := pyDictGet d "project_type" .vNone
        let initial_requirements := pyDictGet d "initial_requirements" (.vDict [])
        match si_try llm jsonLoads project_id location project_type
            initial_requirements origSender with
        | (effs, none) =>
          (recv ++ Effect.log .info "si_starting_analysis" :: effs, none)
        | (effs, some e) =>
          (recv ++ Effect.log .info "si_starting_analysis" ::
            (effs ++ si_except e project_id), none)
      | _ => (recv, some .attributeError)
    else (recv ++ [.log .warning "si_unknown_task"], none)
  else if msg.type = MessageType.result then
    (recv ++ [.log .info "si_received_result"], none)
  else (recv ++ [.log .warning "si_unexpected_message"], none)

/-- Status values of the responses put onto the API bridge queue along a
trace, in order. -/
def respStatuses (t : List Effect) : List Value :=
  (putResponses t).map (fun r => pyDictGet r "status" .vNone)

/-- Concrete LLM oracle: the model always answers with a fixed text. -/
def llmContentX : String → GenOutcome := fun _ => .content "not json"

/-- Concrete LLM oracle: the model call always raises. -/
def llmRaise : String → GenOutcome := fun _ => .exc "boom"

/-- Concrete JSON-parse oracle: every parse attempt raises JSONDecodeError. -/
def jsonLoadsNone : String → Option Value := fun _ => none

/-- Concrete JSON-parse oracle: every string parses to a non-dict JSON
value. -/
def jsonLoadsInt : String → Option Value := fun _ => some (.vInt 3)

/-- Concrete Python-hash oracle for `hash(frozenset(...))`. -/
def hashConst : List (String × Value) → Int := fun _ => 12345678

/-- Sample RESULT message addressed to the Client Engagement agent, as the
Site Intelligence agent sends it on completed analysis. -/
def ceResultMsg : Message :=
  ⟨AgentRoles.SITE_INTELLIGENCE, AgentRoles.CLIENT_ENGAGEMENT, .result,
   [("result", .vDict [("message", .vStr "Site analysis complete for proj_1.")]),
    ("task_id", .vStr "site_analysis_complete")]⟩

/-- Sample intake REQUEST exactly as the /client_inquiry endpoint produces it
(main.py lines 135-140): the entry agent sends it to itself, the data dict is
`request.dict()` and therefore carries the `desired_features` list field. -/
def ceApiIntakeMsg : Message :=
  ⟨AgentRoles.CLIENT_ENGAGEMENT, AgentRoles.CLIENT_ENGAGEMENT, .request,
   [("task", .vStr ce_recognized_task),
    ("data", .vDict [("project_type", .vStr "residential"),
                     ("client_name", .vStr "Acme"),
                     ("budget_range", .vStr "100k-200k"),
                     ("location", .vStr "Suburban Area, London"),
                     ("desired_features", .vList [.vStr "garden", .vStr "garage"]),
                     ("initial_ideas_url", .vNone)]),
    ("original_sender_id", .vStr "fastapi_client_inquiry_endpoint")]⟩

/-- Sample intake REQUEST whose data dict has only hashable values, so the
success path can complete. -/
def ceHashableIntakeMsg : Message :=
  ⟨AgentRoles.CLIENT_ENGAGEMENT, AgentRoles.CLIENT_ENGAGEMENT, .request,
   [("task", .vStr ce_recognized_task),
    ("data", .vDict [("client_name", .vStr "Acme"), ("location", .vStr "X")]),
    ("original_sender_id", .vStr "fastapi_client_inquiry_endpoint")]⟩

/-- Sample REQUEST with a task name no agent recognizes. -/
def unknownTaskMsg : Message :=
  ⟨"someone", AgentRoles.CLIENT_ENGAGEMENT, .request,
   [("task", .vStr "Fetch the weather"), ("data", .vDict [])]⟩

/-- Sample site-analysis REQUEST whose data field is not a dict. -/
def siBadDataMsg : Message :=
  ⟨AgentRoles.CLIENT_ENGAGEMENT, AgentRoles.SITE_INTELLIGENCE, .request,
   [("task", .vStr si_recognized_task), ("data", .vStr "oops")]⟩

/-- Sample site-analysis REQUEST with well-formed data. -/
def siGoodMsg : Message :=
  ⟨AgentRoles.CLIENT_ENGAGEMENT, AgentRoles.SITE_INTELLIGENCE, .request,
   [("task", .vStr si_recognized_task),
    ("data", .vDict [("project_id", .vStr "proj_1"),
                     ("location", .vStr "Downtown, New York"),
                     ("project_type", .vStr "residential"),
                     ("initial_requirements", .vDict [])]),
    ("original_sender_id", .vStr "fastapi_client_inquiry_endpoint")]⟩

/-- Sample site-analysis REQUEST whose location value is unhashable, faulting
inside the guarded analysis. -/
def siFaultMsg : Message :=
  ⟨AgentRoles.CLIENT_ENGAGEMENT, AgentRoles.SITE_INTELLIGENCE, .request,
   [("task", .vStr si_recognized_task),
    ("data", .vDict [("project_id", .vStr "proj_1"),
                     ("location", .vList [.vStr "X"]),
                     ("project_type", .vStr "residential")]),
    ("original_sender_id", .vStr "fastapi_client_inquiry_endpoint")]⟩

@[simp] theorem sentMessages_nil : sentMessages [] = [] := rfl

@[simp] theorem sentMessages_append (a b : List Effect) :
    sentMessages (a ++ b) = sentMessages a ++ sentMessages b :=
  List.filterMap_append a b _

@[simp] theorem sentMessages_cons_log (l : LogLevel) (s : String) (t : List Effect) :
    sentMessages (Effect.log l s :: t) = sentMessages t := rfl

@[simp] theorem sentMessages_cons_put (r : List (String × Value)) (t : List Effect) :
    sentMessages (Effect.putApi r :: t) = sentMessages t := rfl

@[simp] theorem sentMessages_cons_send (m : Message) (t : List Effect) :
    sentMessages (Effect.sendMsg m :: t) = m :: sentMessages t := rfl

@[simp] theorem putResponses_nil : putResponses [] = [] := rfl

@[simp] theorem putResponses_append (a b : List Effect) :
    putResponses (a ++ b) = putResponses a ++ putResponses b :=
  List.filterMap_append a b _

@[simp] theorem putResponses_cons_log (l : LogLevel) (s : String) (t : List Effect) :
    putResponses (Effect.log l s :: t) = putResponses t := rfl

@[simp] theorem putResponses_cons_send (m : Message) (t : List Effect) :
    putResponses (Effect.sendMsg m :: t) = putResponses t := rfl

@[simp] theorem putResponses_cons_put (r : List (String × Value)) (t : List Effect) :
    putResponses (Effect.putApi r :: t) = r :: putResponses t := rfl

@[simp] theorem pyDictGet_nil (k : String) (d : Value) : pyDictGet [] k d = d := rfl

@[simp] theorem pyDictGet_cons_hit (k : String) (v : Value) (rest : List (String × Value))
    (d : Value) : pyDictGet ((k, v) :: rest) k d = v := by
  simp [pyDictGet, List.find?]

@[simp] theorem pyDictGet_cons_ne (q k : String) (v : Value) (rest : List (String × Value))
    (d : Value) (h : (q == k) = false) :
    pyDictGet ((q, v) :: rest) k d = pyDictGet rest k d := by
  simp [pyDictGet, List.find?, h]

/-- Case analysis of `ce_after_parse`: on success there is exactly one
acknowledgment put and one well-formed REQUEST to the Site Intelligence agent;
on a fault nothing is sent and at most the acknowledgment was put; an
unhashable data value always faults, with TypeError when the parsed response
was a dict (so the acknowledgment is already queued). -/
theorem ce_after_parse_spec (hashFS : List (String × Value) → Int)
    (cd : List (String × Value)) (sender : String) (g : Value) :
    ((ce_after_parse hashFS cd sender g).2 = none →
       respStatuses (ce_after_parse hashFS cd sender g).1 = [.vStr "processing_initiated"] ∧
       (sentMessages (ce_after_parse hashFS cd sender g).1).length = 1 ∧
       ∀ m ∈ sentMessages (ce_after_parse hashFS cd sender g).1,
         m.sender_id = AgentRoles.CLIENT_ENGAGEMENT ∧
         m.receiver_id = AgentRoles.SITE_INTELLIGENCE ∧
         m.type = MessageType.request ∧
         (sender ≠ "" → pyDictGet m.payload "original_sender_id" .vNone = .vStr sender)) ∧
    ((ce_after_parse hashFS cd sender g).2 ≠ none →
       sentMessages (ce_after_parse hashFS cd sender g).1 = [] ∧
       (respStatuses (ce_after_parse hashFS cd sender g).1 = [] ∨
        respStatuses (ce_after_parse hashFS cd sender g).1 = [.vStr "processing_initiated"])) ∧
    (List.all cd (fun kv => hashable kv.2) = false →
       (ce_after_parse hashFS cd sender g).2 ≠ none) ∧
    (List.all cd (fun kv => hashable kv.2) = false → (∃ gk, g = .vDict gk) →
       (ce_after_parse hashFS cd sender g).2 = some PyErr.typeError ∧
       respStatuses (ce_after_parse hashFS cd sender g).1 = [.vStr "processing_initiated"]) := by
  rcases g with _ | s | n | b | xs | gk
  case vDict =>
    cases hall : List.all cd (fun kv => hashable kv.2) with
    | true =>
      rcases hpr : pyDictGet gk "parsed_requirements" (Value.vDict cd) with _ | s | n | b | xs | pk
      case vDict =>
        refine ⟨?_, ?_, ?_, ?_⟩
        · intro _
          refine ⟨?_, ?_, ?_⟩
          · simp [ce_after_parse, hall, hpr, respStatuses, put_response_for_api,
              send_task_message]
          · simp [ce_after_parse, hall, hpr, put_response_for_api, send_task_message]
          · intro m hm
            simp [ce_after_parse, hall, hpr, put_response_for_api, send_task_message] at hm
            subst hm
            refine ⟨rfl, rfl, rfl, ?_⟩
            intro hs
            have hb : (sender == "") = false := by simp [hs]
            simp [truthy, hb]
        · intro hcontra
          simp [ce_after_parse, hall, hpr] at hcontra
        · intro hfalse
          simp at hfalse
        · intro hfalse
          simp at hfalse
      all_goals
        refine ⟨?_, ?_, ?_, ?_⟩
        · intro hcontra
          simp [ce_after_parse, hall, hpr] at hcontra
        · intro _
          constructor
          · simp [ce_after_parse, hall, hpr, put_response_for_api]
          · right
            simp [ce_after_parse, hall, hpr, respStatuses, put_response_for_api]
        · intro hfalse
          simp at hfalse
        · intro hfalse
          simp at hfalse
    | false =>
      refine ⟨?_, ?_, ?_, ?_⟩
      · intro hcontra
        simp [ce_after_parse, hall] at hcontra
      · intro _
        constructor
        · simp [ce_after_parse, hall, put_response_for_api]
        · right
          simp [ce_after_parse, hall, respStatuses, put_response_for_api]
      · intro _
        simp [ce_after_parse, hall]
      · intro _ _
        constructor
        · simp [ce_after_parse, hall]
        · simp [ce_after_parse, hall, respStatuses, put_response_for_api]
  all_goals
    refine ⟨?_, ?_, ?_, ?_⟩
    · intro hcontra
      simp [ce_after_parse] at hcontra
    · intro _
      exact ⟨rfl, Or.inl rfl⟩
    · intro _
      simp [ce_after_parse]
    · intro _ hgk
      rcases hgk with ⟨gk, hgk⟩
      simp at hgk

/-- Lift of `ce_after_parse_spec` through the JSON-parse step of `ce_try` (a
decode failure falls back to `ce_fallback`, which is a dict). -/
theorem ce_try_spec (llm : String → GenOutcome) (jsonLoads : String → Option Value)
    (hashFS : List (String × Value) → Int) (cd : List (String × Value)) (sender : String) :
    ((ce_try llm jsonLoads hashFS cd sender).2 = none →
       respStatuses (ce_try llm jsonLoads hashFS cd sender).1 = [.vStr "processing_initiated"] ∧
       (sentMessages (ce_try llm jsonLoads hashFS cd sender).1).length = 1 ∧
       ∀ m ∈ sentMessages (ce_try llm jsonLoads hashFS cd sender).1,
         m.sender_id = AgentRoles.CLIENT_ENGAGEMENT ∧
         m.receiver_id = AgentRoles.SITE_INTELLIGENCE ∧
         m.type = MessageType.request ∧
         (sender ≠ "" → pyDictGet m.payload "original_sender_id" .vNone = .vStr sender)) ∧
    ((ce_try llm jsonLoads hashFS cd sender).2 ≠ none →
       sentMessages (ce_try llm jsonLoads hashFS cd sender).1 = [] ∧
       (respStatuses (ce_try llm jsonLoads hashFS cd sender).1 = [] ∨
        respStatuses (ce_try llm jsonLoads hashFS cd sender).1 = [.vStr "processing_initiated"])) ∧
    (List.all cd (fun kv => hashable kv.2) = false →
       (ce_try llm jsonLoads hashFS cd sender).2 ≠ none) ∧
    (List.all cd (fun kv => hashable kv.2) = false →
     (jsonLoads (LLMApi.generate_text llm (ce_prompt (.vDict cd))) = none ∨
      ∃ gk, jsonLoads (LLMApi.generate_text llm (ce_prompt (.vDict cd))) = some (.vDict gk)) →
       (ce_try llm jsonLoads hashFS cd sender).2 = some PyErr.typeError ∧
       respStatuses (ce_try llm jsonLoads hashFS cd sender).1 = [.vStr "processing_initiated"]) := by
  rcases hjl : jsonLoads (LLMApi.generate_text llm (ce_prompt (.vDict cd))) with _ | v
  · obtain ⟨h1, h2, h3, h4⟩ := ce_after_parse_spec hashFS cd sender (ce_fallback (.vDict cd))
    refine ⟨?_, ?_, ?_, ?_⟩
    · intro hnone
      rw [ce_try, hjl] at hnone ⊢
      simp only at hnone ⊢
      obtain ⟨ha, hb, hc⟩ := h1 hnone
      refine ⟨?_, ?_, ?_⟩
      · simpa [respStatuses] using ha
      · simpa using hb
      · simpa using hc
    · intro hne
      rw [ce_try, hjl] at hne ⊢
      simp only at hne ⊢
      obtain ⟨ha, hb⟩ := h2 hne
      constructor
      · simpa using ha
      · rcases hb with hb | hb
        · left
          simpa [respStatuses] using hb
        · right
          simpa [respStatuses] using hb
    · intro hunhash
      rw [ce_try, hjl]
      simp only
      exact h3 hunhash
    · intro hunhash _
      have hd := h4 hunhash ⟨_, rfl⟩
      rw [ce_try, hjl]
      simp only
      refine ⟨hd.1, ?_⟩
      simpa [respStatuses] using hd.2
  · obtain ⟨h1, h2, h3, h4⟩ := ce_after_parse_spec hashFS cd sender v
    refine ⟨?_, ?_, ?_, ?_⟩
    · intro hnone
      rw [ce_try, hjl] at hnone ⊢
      simp only at hnone ⊢
      obtain ⟨ha, hb, hc⟩ := h1 hnone
      refine ⟨?_, ?_, ?_⟩
      · simpa [respStatuses] using ha
      · simpa using hb
      · simpa using hc
    · intro hne
      rw [ce_try, hjl] at hne ⊢
      simp only at hne ⊢
      obtain ⟨ha, hb⟩ := h2 hne
      constructor
      · simpa using ha
      · rcases hb with hb | hb
        · left
          simpa [respStatuses] using hb
        · right
          simpa [respStatuses] using hb
    · intro hunhash
      rw [ce_try, hjl]
      simp only
      exact h3 hunhash
    · intro hunhash hphase
      have hvd : ∃ gk, v = Value.vDict gk := by
        rcases hphase with hp | ⟨gk, hp⟩
        · exact absurd hp (by simp)
        · exact ⟨gk, by injection hp⟩
      have hd := h4 hunhash hvd
      rw [ce_try, hjl]
      simp only
      refine ⟨hd.1, ?_⟩
      simpa [respStatuses] using hd.2

/-- Behavior of StrategicClientEngagementAgent.on_message on any recognized
intake REQUEST with a dict data field: the handler returns normally (the
guarded body catches its own faults), puts one or two responses whose status
is always processing_initiated or error, forwards at most one REQUEST, and
forwards exactly one iff exactly one response (the acknowledgment) was put;
with an unhashable data value and a dict-shaped (or fallback) LLM parse the
trace is acknowledgment followed by error with no forwarded REQUEST, the
guarded body ending in TypeError from the project-id hash. -/
theorem ce_master (llm : String → GenOutcome) (jsonLoads : String → Option Value)
    (hashFS : List (String × Value) → Int) (msg : Message) (cd : List (String × Value))
    (hty : msg.type = MessageType.request)
    (hrecv : msg.receiver_id = AgentRoles.CLIENT_ENGAGEMENT)
    (htask : pyDictGet msg.payload "task" .vNone = .vStr ce_recognized_task)
    (hdata : pyDictGet msg.payload "data" (.vDict []) = .vDict cd) :
    (StrategicClientEngagementAgent.on_message llm jsonLoads hashFS msg).2 = none ∧
    (∀ s ∈ respStatuses (StrategicClientEngagementAgent.on_message llm jsonLoads hashFS msg).1,
       s = Value.vStr "processing_initiated" ∨ s = Value.vStr "error") ∧
    1 ≤ (respStatuses (StrategicClientEngagementAgent.on_message llm jsonLoads hashFS msg).1).length ∧
    (respStatuses (StrategicClientEngagementAgent.on_message llm jsonLoads hashFS msg).1).length ≤ 2 ∧
    (sentMessages (StrategicClientEngagementAgent.on_message llm jsonLoads hashFS msg).1).length ≤ 1 ∧
    (∀ m ∈ sentMessages (StrategicClientEngagementAgent.on_message llm jsonLoads hashFS msg).1,
       m.sender_id = AgentRoles.CLIENT_ENGAGEMENT ∧
       m.receiver_id = AgentRoles.SITE_INTELLIGENCE ∧
       m.type = MessageType.request ∧
       (msg.sender_id ≠ "" →
         pyDictGet m.payload "original_sender_id" .vNone = .vStr msg.sender_id)) ∧
    ((sentMessages (StrategicClientEngagementAgent.on_message llm jsonLoads hashFS msg).1).length = 1 ↔
       respStatuses (StrategicClientEngagementAgent.on_message llm jsonLoads hashFS msg).1 =
         [Value.vStr "processing_initiated"]) ∧
    ((respStatuses (StrategicClientEngagementAgent.on_message llm jsonLoads hashFS msg).1).length = 2 →
       sentMessages (StrategicClientEngagementAgent.on_message llm jsonLoads hashFS msg).1 = []) ∧
    (List.all cd (fun kv => hashable kv.2) = false →
     (jsonLoads (LLMApi.generate_text llm (ce_prompt (.vDict cd))) = none ∨
      ∃ gk, jsonLoads (LLMApi.generate_text llm (ce_prompt (.vDict cd))) = some (.vDict gk)) →
       respStatuses (StrategicClientEngagementAgent.on_message llm jsonLoads hashFS msg).1 =
         [Value.vStr "processing_initiated", Value.vStr "error"] ∧
       sentMessages (StrategicClientEngagementAgent.on_message llm jsonLoads hashFS msg).1 = [] ∧
       (ce_try llm jsonLoads hashFS cd msg.sender_id).2 = some PyErr.typeError) := by
  obtain ⟨try1, try2, try3, try4⟩ := ce_try_spec llm jsonLoads hashFS cd msg.sender_id
  rcases htry : ce_try llm jsonLoads hashFS cd msg.sender_id with ⟨effs, err⟩
  rw [htry] at try1 try2 try3 try4
  cases err with
  | none =>
    have hres : StrategicClientEngagementAgent.on_message llm jsonLoads hashFS msg =
        (Effect.log .info "ce_received_message" ::
         Effect.log .info "ce_processing_inquiry" :: effs, none) := by
      simp [StrategicClientEngagementAgent.on_message, hty, hrecv, htask, hdata, vEqStr, htry]
    obtain ⟨ha, hb, hc⟩ := try1 rfl
    rw [hres]
    simp only []
    have hstat : respStatuses (Effect.log .info "ce_received_message" ::
        Effect.log .info "ce_processing_inquiry" :: effs) = [Value.vStr "processing_initiated"] := by
      simpa [respStatuses] using ha
    have hsent : sentMessages (Effect.log .info "ce_received_message" ::
        Effect.log .info "ce_processing_inquiry" :: effs) = sentMessages effs := by
      simp
    refine ⟨trivial, ?_, ?_, ?_, ?_, ?_, ?_, ?_, ?_⟩
    · intro s hs
      rw [hstat] at hs
      simp at hs
      exact Or.inl hs
    · rw [hstat]
      simp
    · rw [hstat]
      simp
    · rw [hsent, hb]
    · intro m hm
      rw [hsent] at hm
      exact hc m hm
    · constructor
      · intro _
        exact hstat
      · intro _
        rw [hsent]
        exact hb
    · intro h2
      rw [hstat] at h2
      simp at h2
    · intro hunhash hphase
      have := (try4 hunhash hphase).1
      simp at this
  | some e =>
    have hres : StrategicClientEngagementAgent.on_message llm jsonLoads hashFS msg =
        (Effect.log .info "ce_received_message" ::
         Effect.log .info "ce_processing_inquiry" :: (effs ++ ce_except e), none) := by
      simp [StrategicClientEngagementAgent.on_message, hty, hrecv, htask, hdata, vEqStr, htry]
    obtain ⟨ha, hb⟩ := try2 (by simp)
    rw [hres]
    simp only []
    have hexstat : respStatuses (ce_except e) = [Value.vStr "error"] := by
      simp [respStatuses, ce_except, put_response_for_api]
    have hstat : respStatuses (Effect.log .info "ce_received_message" ::
        Effect.log .info "ce_processing_inquiry" :: (effs ++ ce_except e)) =
        respStatuses effs ++ [Value.vStr "error"] := by
      simp [respStatuses] at hexstat ⊢
      rw [hexstat]
    have hsent : sentMessages (Effect.log .info "ce_received_message" ::
        Effect.log .info "ce_processing_inquiry" :: (effs ++ ce_except e)) = [] := by
      have : sentMessages (ce_except e) = [] := by
        simp [ce_except, put_response_for_api]
      simp [ha, this]
    refine ⟨trivial, ?_, ?_, ?_, ?_, ?_, ?_, ?_, ?_⟩
    · intro s hs
      rw [hstat] at hs
      rcases hb with hb | hb <;> rw [hb] at hs <;> simp at hs
      · exact Or.inr hs
      · rcases hs with hs | hs
        · exact Or.inl hs
        · exact Or.inr hs
    · rw [hstat]
      simp
    · rw [hstat]
      rcases hb with hb | hb <;> rw [hb] <;> simp
    · rw [hsent]
      simp
    · intro m hm
      rw [hsent] at hm
      simp at hm
    · constructor
      · intro h1
        rw [hsent] at h1
        simp at h1
      · intro hst1
        rw [hstat] at hst1
        rcases hb with hb | hb <;> rw [hb] at hst1 <;> simp at hst1
    · intro _
      exact hsent
    · intro hunhash hphase
      obtain ⟨he, hst⟩ := try4 hunhash hphase
      refine ⟨?_, hsent, he⟩
      rw [hstat, hst]
      rfl

/-- Case analysis of `si_after_parse`: every fault aborts with an empty trace;
on success exactly one RESULT for the Client Engagement agent and one REQUEST
for the Architectural Design agent are sent, the latter carrying the
original_sender_id value when it is truthy. -/
theorem si_after_parse_spec (pid loc pty initReq orig site zon env cc g : Value) :
    ((si_after_parse pid loc pty initReq orig site zon env cc g).2 ≠ none →
       (si_after_parse pid loc pty initReq orig site zon env cc g).1 = []) ∧
    ((si_after_parse pid loc pty initReq orig site zon env cc g).2 = none →
       (sentMessages (si_after_parse pid loc pty initReq orig site zon env cc g).1).length = 2 ∧
       ((sentMessages (si_after_parse pid loc pty initReq orig site zon env cc g).1).filter
          (fun m => decide (m.type = MessageType.result))).length = 1 ∧
       ((sentMessages (si_after_parse pid loc pty initReq orig site zon env cc g).1).filter
          (fun m => decide (m.type = MessageType.request))).length = 1 ∧
       ∀ m ∈ sentMessages (si_after_parse pid loc pty initReq orig site zon env cc g).1,
         m.sender_id = AgentRoles.SITE_INTELLIGENCE ∧
         (m.type = MessageType.result → m.receiver_id = AgentRoles.CLIENT_ENGAGEMENT) ∧
         (m.type = MessageType.request → m.receiver_id = AgentRoles.ARCHITECTURAL_DESIGN ∧
            (truthy orig = true →
              pyDictGet m.payload "original_sender_id" .vNone = orig))) := by
  rcases h1 : valueGet zon "allowed_height_m" (.vStr "N/A") with e1 | ah
  · exact ⟨fun _ => by simp [si_after_parse, h1],
           fun hn => by simp [si_after_parse, h1] at hn⟩
  rcases h2 : valueGet zon "setbacks_m" (.vDict []) with e2 | sb
  · exact ⟨fun _ => by simp [si_after_parse, h1, h2],
           fun hn => by simp [si_after_parse, h1, h2] at hn⟩
  rcases h3 : valueGet site "max_coverage_percent" (.vStr "N/A") with e3 | mc
  · exact ⟨fun _ => by simp [si_after_parse, h1, h2, h3],
           fun hn => by simp [si_after_parse, h1, h2, h3] at hn⟩
  rcases h4 : valueGet g "summary" (.vStr "N/A") with e4 | sm
  · exact ⟨fun _ => by simp [si_after_parse, h1, h2, h3, h4],
           fun hn => by simp [si_after_parse, h1, h2, h3, h4] at hn⟩
  rcases h5 : valueGet g "compliance_challenges" (.vList []) with e5 | chal
  · exact ⟨fun _ => by simp [si_after_parse, h1, h2, h3, h4, h5],
           fun hn => by simp [si_after_parse, h1, h2, h3, h4, h5] at hn⟩
  rcases h6 : valueGet g "recommendations" (.vList []) with e6 | rec
  · exact ⟨fun _ => by simp [si_after_parse, h1, h2, h3, h4, h5, h6],
           fun hn => by simp [si_after_parse, h1, h2, h3, h4, h5, h6] at hn⟩
  constructor
  · intro hne
    exact absurd (by simp [si_after_parse, h1, h2, h3, h4, h5, h6]) hne
  · intro _
    refine ⟨?_, ?_, ?_, ?_⟩
    · simp [si_after_parse, h1, h2, h3, h4, h5, h6, send_result_message, send_task_message]
    · simp [si_after_parse, h1, h2, h3, h4, h5, h6, send_result_message, send_task_message]
    · simp [si_after_parse, h1, h2, h3, h4, h5, h6, send_result_message, send_task_message]
    · intro m hm
      simp [si_after_parse, h1, h2, h3, h4, h5, h6, send_result_message,
        send_task_message] at hm
      rcases hm with hm | hm
      · subst hm
        refine ⟨rfl, fun _ => rfl, fun hreq => ?_⟩
        simp at hreq
      · subst hm
        refine ⟨rfl, fun hres => ?_, fun _ => ⟨rfl, ?_⟩⟩
        · simp at hres
        · intro htr
          simp [htr]

/-- Lift of `si_after_parse_spec` through the mock-zoning lookup, the field
extractions and the JSON-parse step of `si_try`. -/
theorem si_try_spec (llm : String → GenOutcome) (jsonLoads : String → Option Value)
    (pid loc pty initReq orig : Value) :
    ((si_try llm jsonLoads pid loc pty initReq orig).2 ≠ none →
       sentMessages (si_try llm jsonLoads pid loc pty initReq orig).1 = []) ∧
    ((si_try llm jsonLoads pid loc pty initReq orig).2 = none →
       (sentMessages (si_try llm jsonLoads pid loc pty initReq orig).1).length = 2 ∧
       ((sentMessages (si_try llm jsonLoads pid loc pty initReq orig).1).filter
          (fun m => decide (m.type = MessageType.result))).length = 1 ∧
       ((sentMessages (si_try llm jsonLoads pid loc pty initReq orig).1).filter
          (fun m => decide (m.type = MessageType.request))).length = 1 ∧
       ∀ m ∈ sentMessages (si_try llm jsonLoads pid loc pty initReq orig).1,
         m.sender_id = AgentRoles.SITE_INTELLIGENCE ∧
         (m.type = MessageType.result → m.receiver_id = AgentRoles.CLIENT_ENGAGEMENT) ∧
         (m.type = MessageType.request → m.receiver_id = AgentRoles.ARCHITECTURAL_DESIGN ∧
            (truthy orig = true →
              pyDictGet m.payload "original_sender_id" .vNone = orig))) := by
  rcases hsi : valueGetK (.vDict mock_zoning_data) loc
      (pyDictGet mock_zoning_data "Suburban Area, London" .vNone) with e0 | site
  · exact ⟨fun _ => by simp [si_try, hsi],
           fun hn => by simp [si_try, hsi] at hn⟩
  rcases hzr : valueGetK site pty (.vDict []) with e0 | zon
  · exact ⟨fun _ => by simp [si_try, hsi, hzr],
           fun hn => by simp [si_try, hsi, hzr] at hn⟩
  rcases her : valueGet site "environmental_risk" (.vStr "Unknown") with e0 | env
  · exact ⟨fun _ => by simp [si_try, hsi, hzr, her],
           fun hn => by simp [si_try, hsi, hzr, her] at hn⟩
  rcases hcc : valueGet site "common_building_codes" (.vStr "Standard building codes apply.")
      with e0 | cc
  · exact ⟨fun _ => by simp [si_try, hsi, hzr, her, hcc],
           fun hn => by simp [si_try, hsi, hzr, her, hcc] at hn⟩
  rcases hjl : jsonLoads (LLMApi.generate_text llm (si_prompt loc pty initReq site))
      with _ | v
  · obtain ⟨ha, hb⟩ := si_after_parse_spec pid loc pty initReq orig site zon env cc si_fallback
    constructor
    · intro hne
      simp only [si_try, hsi, hzr, her, hcc, hjl] at hne ⊢
      rw [ha hne]
      rfl
    · intro hn
      simp only [si_try, hsi, hzr, her, hcc, hjl] at hn ⊢
      obtain ⟨hl, hr1, hr2, hp⟩ := hb hn
      refine ⟨by simpa using hl, by simpa using hr1, by simpa using hr2, ?_⟩
      intro m hm
      simp only [sentMessages_cons_log] at hm
      exact hp m hm
  · obtain ⟨ha, hb⟩ := si_after_parse_spec pid loc pty initReq orig site zon env cc v
    constructor
    · intro hne
      simp only [si_try, hsi, hzr, her, hcc, hjl] at hne ⊢
      rw [ha hne]
      rfl
    · intro hn
      simp only [si_try, hsi, hzr, her, hcc, hjl] at hn ⊢
      obtain ⟨hl, hr1, hr2, hp⟩ := hb hn
      refine ⟨by simpa using hl, by simpa using hr1, by simpa using hr2, ?_⟩
      intro m hm
      simp only [sentMessages_cons_log] at hm
      exact hp m hm

/-- Helper for the FIFO bridge claim: folding puts over the queue appends the
responses in order. -/
theorem foldl_put_response_q (rs : List Response) (q : List Response) :
    List.foldl put_response_for_api_q q rs = q ++ rs := by
  induction rs generalizing q with
  | nil => simp
  | cons r rest ih => simp [put_response_for_api_q, ih]

/-- C1 counterexample: for the intake REQUEST exactly as produced by the
/client_inquiry endpoint (whose data dict carries the desired_features list),
on_message calls put_response_for_api twice, not exactly once, and forwards no
REQUEST: after the acknowledgment is queued, the project-id construction
hash(frozenset(client_data.items())) raises TypeError on the list value and
the except handler queues a second, error response. -/
theorem c1_put_exactly_once_counterexample :
    (putResponses (StrategicClientEngagementAgent.on_message llmContentX jsonLoadsNone
        hashConst ceApiIntakeMsg).1).length = 2 ∧
    ¬ (putResponses (StrategicClientEngagementAgent.on_message llmContentX jsonLoadsNone
        hashConst ceApiIntakeMsg).1).length = 1 ∧
    sentMessages (StrategicClientEngagementAgent.on_message llmContentX jsonLoadsNone
        hashConst ceApiIntakeMsg).1 = [] := by
  refine ⟨rfl, by decide, rfl⟩

/-- C1 (amended): for every intake REQUEST addressed to the Strategic Client
Engagement Agent carrying the recognized client-inquiry task with a dict data
field and a nonempty envelope sender, on_message returns normally and calls
put_response_for_api once or twice, every queued response having status
processing_initiated or error; it enqueues at most one REQUEST, always to the
Site Intelligence agent with original_sender_id equal to the envelope sender;
it enqueues exactly one REQUEST exactly when a single (acknowledgment)
response was put, and when two responses are put (a fault after the
acknowledgment, e.g. an unhashable data value) no REQUEST is forwarded. -/
theorem c1_intake_response_discipline_amended (llm : String → GenOutcome)
    (jsonLoads : String → Option Value) (hashFS : List (String × Value) → Int)
    (msg : Message) (cd : List (String × Value))
    (hty : msg.type = MessageType.request)
    (hrecv : msg.receiver_id = AgentRoles.CLIENT_ENGAGEMENT)
    (htask : pyDictGet msg.payload "task" .vNone = .vStr ce_recognized_task)
    (hdata : pyDictGet msg.payload "data" (.vDict []) = .vDict cd)
    (hs : msg.sender_id ≠ "") :
    (StrategicClientEngagementAgent.on_message llm jsonLoads hashFS msg).2 = none ∧
    (∀ s ∈ respStatuses (StrategicClientEngagementAgent.on_message llm jsonLoads hashFS msg).1,
       s = Value.vStr "processing_initiated" ∨ s = Value.vStr "error") ∧
    1 ≤ (respStatuses (StrategicClientEngagementAgent.on_message llm jsonLoads hashFS msg).1).length ∧
    (respStatuses (StrategicClientEngagementAgent.on_message llm jsonLoads hashFS msg).1).length ≤ 2 ∧
    (sentMessages (StrategicClientEngagementAgent.on_message llm jsonLoads hashFS msg).1).length ≤ 1 ∧
    (∀ m ∈ sentMessages (StrategicClientEngagementAgent.on_message llm jsonLoads hashFS msg).1,
       m.receiver_id = AgentRoles.SITE_INTELLIGENCE ∧
       m.type = MessageType.request ∧
       pyDictGet m.payload "original_sender_id" .vNone = .vStr msg.sender_id) ∧
    ((sentMessages (StrategicClientEngagementAgent.on_message llm jsonLoads hashFS msg).1).length = 1 ↔
       respStatuses (StrategicClientEngagementAgent.on_message llm jsonLoads hashFS msg).1 =
         [Value.vStr "processing_initiated"]) ∧
    ((respStatuses (StrategicClientEngagementAgent.on_message llm jsonLoads hashFS msg).1).length = 2 →
       sentMessages (StrategicClientEngagementAgent.on_message llm jsonLoads hashFS msg).1 = []) := by
  obtain ⟨h1, h2, h3, h4, h5, h6, h7, h8, _⟩ :=
    ce_master llm jsonLoads hashFS msg cd hty hrecv htask hdata
  exact ⟨h1, h2, h3, h4, h5,
    fun m hm => ⟨(h6 m hm).2.1, (h6 m hm).2.2.1, (h6 m hm).2.2.2 hs⟩, h7, h8⟩

/-- C1 witness: the amended theorem applied to a concrete hashable intake; the
single acknowledgment put forces exactly one forwarded REQUEST. -/
theorem c1_intake_response_discipline_amended_witness :
    (StrategicClientEngagementAgent.on_message llmContentX jsonLoadsNone hashConst
        ceHashableIntakeMsg).2 = none ∧
    (sentMessages (StrategicClientEngagementAgent.on_message llmContentX jsonLoadsNone hashConst
        ceHashableIntakeMsg).1).length = 1 :=
  ⟨(c1_intake_response_discipline_amended llmContentX jsonLoadsNone hashConst ceHashableIntakeMsg
      [("client_name", Value.vStr "Acme"), ("location", Value.vStr "X")]
      rfl rfl rfl rfl (by decide)).1,
   (c1_intake_response_discipline_amended llmContentX jsonLoadsNone hashConst ceHashableIntakeMsg
      [("client_name", Value.vStr "Acme"), ("location", Value.vStr "X")]
      rfl rfl rfl rfl (by decide)).2.2.2.2.2.2.1.mpr rfl⟩

/-- C2: a RESULT message delivered to the Strategic Client Engagement Agent is
classified by the outer else branch as an unexpected message (a warning log)
and is not handled by the RESULT-aggregation branch, because the elif on
MessageType.RESULT at line 110 of the source is nested inside the branch that
already requires MessageType.REQUEST and is therefore unreachable. -/
theorem c2_result_message_classified_unexpected :
    StrategicClientEngagementAgent.on_message llmContentX jsonLoadsNone hashConst ceResultMsg =
      ([.log .info "ce_received_message", .log .warning "ce_unexpected_message"], none) := rfl

/-- C3: per agent, any message outside the one recognized
(REQUEST, own-receiver, known-task) combination — an unrecognized REQUEST task
name, a receiver id differing from that agent id (even when the message is the
other agent's recognized REQUEST), or a stray type — makes that agent's
on_message return normally with no outbound message and no queued response
(log-and-ignore). -/
theorem c3_unrecognized_or_misaddressed_ignored (llm : String → GenOutcome)
    (jsonLoads : String → Option Value) (hashFS : List (String × Value) → Int)
    (msg : Message) :
    ((¬(msg.type = MessageType.request ∧ msg.receiver_id = AgentRoles.CLIENT_ENGAGEMENT ∧
        vEqStr (pyDictGet msg.payload "task" .vNone) ce_recognized_task = true)) →
      (StrategicClientEngagementAgent.on_message llm jsonLoads hashFS msg).2 = none ∧
      sentMessages (StrategicClientEngagementAgent.on_message llm jsonLoads hashFS msg).1 = [] ∧
      putResponses (StrategicClientEngagementAgent.on_message llm jsonLoads hashFS msg).1 = []) ∧
    ((¬(msg.type = MessageType.request ∧ msg.receiver_id = AgentRoles.SITE_INTELLIGENCE ∧
        vEqStr (pyDictGet msg.payload "task" .vNone) si_recognized_task = true)) →
      (SiteIntelligenceRegulatoryComplianceAgent.on_message llm jsonLoads msg).2 = none ∧
      sentMessages (SiteIntelligenceRegulatoryComplianceAgent.on_message llm jsonLoads msg).1 = [] ∧
      putResponses (SiteIntelligenceRegulatoryComplianceAgent.on_message llm jsonLoads msg).1 = []) := by
  constructor
  · intro hce
    by_cases hc : msg.type = MessageType.request ∧ msg.receiver_id = AgentRoles.CLIENT_ENGAGEMENT
    · have hv : vEqStr (pyDictGet msg.payload "task" .vNone) ce_recognized_task = false := by
        cases hb : vEqStr (pyDictGet msg.payload "task" .vNone) ce_recognized_task
        · rfl
        · exact absurd ⟨hc.1, hc.2, hb⟩ hce
      have hnr : ¬ (msg.type = MessageType.result) := by
        rw [hc.1]
        simp
      simp [StrategicClientEngagementAgent.on_message, hc, hv, hnr]
    · simp [StrategicClientEngagementAgent.on_message, hc]
  · intro hsi
    by_cases hc : msg.type = MessageType.request ∧ msg.receiver_id = AgentRoles.SITE_INTELLIGENCE
    · have hv : vEqStr (pyDictGet msg.payload "task" .vNone) si_recognized_task = false := by
        cases hb : vEqStr (pyDictGet msg.payload "task" .vNone) si_recognized_task
        · rfl
        · exact absurd ⟨hc.1, hc.2, hb⟩ hsi
      simp [SiteIntelligenceRegulatoryComplianceAgent.on_message, hc, hv]
    · by_cases hr : msg.type = MessageType.result
      · simp [SiteIntelligenceRegulatoryComplianceAgent.on_message, hc, hr]
      · simp [SiteIntelligenceRegulatoryComplianceAgent.on_message, hc, hr]

/-- C3 witness: a wrong-receiver instance on each side — the Client Engagement
agent ignores the Site Intelligence recognized REQUEST addressed to the Site
Intelligence agent, and the Site Intelligence agent ignores the intake REQUEST
addressed to the Client Engagement agent — plus an unrecognized task name on
both agents. -/
theorem c3_unrecognized_or_misaddressed_ignored_witness :
    sentMessages (StrategicClientEngagementAgent.on_message llmContentX jsonLoadsNone hashConst
        siGoodMsg).1 = [] ∧
    sentMessages (SiteIntelligenceRegulatoryComplianceAgent.on_message llmContentX jsonLoadsNone
        ceApiIntakeMsg).1 = [] ∧
    sentMessages (StrategicClientEngagementAgent.on_message llmContentX jsonLoadsNone hashConst
        unknownTaskMsg).1 = [] ∧
    sentMessages (SiteIntelligenceRegulatoryComplianceAgent.on_message llmContentX jsonLoadsNone
        unknownTaskMsg).1 = [] :=
  ⟨((c3_unrecognized_or_misaddressed_ignored llmContentX jsonLoadsNone hashConst
      siGoodMsg).1 (by decide)).2.1,
   ((c3_unrecognized_or_misaddressed_ignored llmContentX jsonLoadsNone hashConst
      ceApiIntakeMsg).2 (by decide)).2.1,
   ((c3_unrecognized_or_misaddressed_ignored llmContentX jsonLoadsNone hashConst
      unknownTaskMsg).1 (by decide)).2.1,
   ((c3_unrecognized_or_misaddressed_ignored llmContentX jsonLoadsNone hashConst
      unknownTaskMsg).2 (by decide)).2.1⟩

/-- C4: with an unset delivery context, send_task_message and
send_result_message return normally with a single error-log effect: no Message
is constructed or sent. -/
theorem c4_send_without_context_only_logs (selfId receiverId task_description : String)
    (data orig : Value) (result_data : Value) (task_id : Option String) :
    send_task_message none selfId receiverId task_description data orig =
      [.log .error "context_not_set_cannot_send"] ∧
    send_result_message none selfId receiverId result_data task_id =
      [.log .error "context_not_set_cannot_send_result"] ∧
    sentMessages (send_task_message none selfId receiverId task_description data orig) = [] ∧
    sentMessages (send_result_message none selfId receiverId result_data task_id) = [] :=
  ⟨rfl, rfl, rfl, rfl⟩

/-- C5: for every timeout value, get_response_from_api on an empty (and
persistently empty) queue returns the distinguished timeout dict, whose status
field is the string timeout, instead of raising. -/
theorem c5_get_on_empty_queue_times_out (agentId : String) (timeout : Nat) :
    get_response_from_api agentId timeout [] =
      ([("status", .vStr "timeout"), ("agent", .vStr agentId),
        ("details", .vStr "Agent took too long to respond.")], []) ∧
    pyDictGet (get_response_from_api agentId timeout []).1 "status" .vNone =
      .vStr "timeout" := by
  refine ⟨rfl, ?_⟩
  simp [get_response_from_api]

/-- C6: the bridge queue is FIFO end to end: after any sequence of
put_response_for_api calls on an empty queue, the same number of
get_response_from_api calls returns exactly those responses in put order. -/
theorem c6_bridge_queue_fifo_roundtrip (agentId : String) (timeout : Nat)
    (rs : List Response) :
    getResponses agentId timeout (List.foldl put_response_for_api_q [] rs) rs.length = rs := by
  rw [foldl_put_response_q, List.nil_append]
  induction rs with
  | nil => rfl
  | cons r rest ih => simp [getResponses, get_response_from_api, ih]

/-- C7 counterexample: a recognized site-analysis REQUEST whose data field is
not a dict makes the field extraction at source lines 70-73 (before the try
block) raise AttributeError out of on_message, with no RESULT sent at all, so
the internal fault does escape and no error RESULT reaches the Client
Engagement agent. -/
theorem c7_nondict_data_fault_escapes_counterexample :
    (SiteIntelligenceRegulatoryComplianceAgent.on_message llmContentX jsonLoadsNone
        siBadDataMsg).2 = some PyErr.attributeError ∧
    sentMessages (SiteIntelligenceRegulatoryComplianceAgent.on_message llmContentX jsonLoadsNone
        siBadDataMsg).1 = [] := ⟨rfl, rfl⟩

/-- C7 (amended): whenever the Site Intelligence agent handles its recognized
site-analysis REQUEST whose data field is a dict, on_message returns normally;
it sends exactly one RESULT, always to the Client Engagement agent, and at
most one REQUEST, always to the Architectural Design agent carrying the
original_sender_id taken from the incoming payload (when that value is
truthy); when no REQUEST is forwarded the fault was caught internally and the
single RESULT carries a result payload with status error.  Faults raised by a
non-dict data field occur before the try block and escape (see the
counterexample). -/
theorem c7_site_analysis_messaging_amended (llm : String → GenOutcome)
    (jsonLoads : String → Option Value) (msg : Message) (d : List (String × Value))
    (hty : msg.type = MessageType.request)
    (hrecv : msg.receiver_id = AgentRoles.SITE_INTELLIGENCE)
    (htask : pyDictGet msg.payload "task" .vNone = .vStr si_recognized_task)
    (hdata : pyDictGet msg.payload "data" (.vDict []) = .vDict d) :
    (SiteIntelligenceRegulatoryComplianceAgent.on_message llm jsonLoads msg).2 = none ∧
    ((sentMessages (SiteIntelligenceRegulatoryComplianceAgent.on_message llm jsonLoads msg).1).filter
       (fun m => decide (m.type = MessageType.result))).length = 1 ∧
    ((sentMessages (SiteIntelligenceRegulatoryComplianceAgent.on_message llm jsonLoads msg).1).filter
       (fun m => decide (m.type = MessageType.request))).length ≤ 1 ∧
    (∀ m ∈ sentMessages (SiteIntelligenceRegulatoryComplianceAgent.on_message llm jsonLoads msg).1,
       m.sender_id = AgentRoles.SITE_INTELLIGENCE ∧
       (m.type = MessageType.result → m.receiver_id = AgentRoles.CLIENT_ENGAGEMENT) ∧
       (m.type = MessageType.request → m.receiver_id = AgentRoles.ARCHITECTURAL_DESIGN ∧
          (truthy (pyDictGet msg.payload "original_sender_id" .vNone) = true →
            pyDictGet m.payload "original_sender_id" .vNone =
              pyDictGet msg.payload "original_sender_id" .vNone))) ∧
    (((sentMessages (SiteIntelligenceRegulatoryComplianceAgent.on_message llm jsonLoads msg).1).filter
        (fun m => decide (m.type = MessageType.request))).length = 0 →
      ∀ m ∈ sentMessages (SiteIntelligenceRegulatoryComplianceAgent.on_message llm jsonLoads msg).1,
        ∃ rd, pyDictGet m.payload "result" .vNone = .vDict rd ∧
          pyDictGet rd "status" .vNone = .vStr "error") := by
  obtain ⟨try1, try2⟩ := si_try_spec llm jsonLoads
    (pyDictGet d "project_id" .vNone) (pyDictGet d "location" .vNone)
    (pyDictGet d "project_type" .vNone) (pyDictGet d "initial_requirements" (.vDict []))
    (pyDictGet msg.payload "original_sender_id" .vNone)
  rcases htry : si_try llm jsonLoads
      (pyDictGet d "project_id" .vNone) (pyDictGet d "location" .vNone)
      (pyDictGet d "project_type" .vNone) (pyDictGet d "initial_requirements" (.vDict []))
      (pyDictGet msg.payload "original_sender_id" .vNone) with ⟨effs, err⟩
  rw [htry] at try1 try2
  cases err with
  | none =>
    have hres : SiteIntelligenceRegulatoryComplianceAgent.on_message llm jsonLoads msg =
        (Effect.log .info "si_received_message" ::
         Effect.log .info "si_starting_analysis" :: effs, none) := by
      simp [SiteIntelligenceRegulatoryComplianceAgent.on_message, hty, hrecv, htask, hdata,
        vEqStr, htry]
    obtain ⟨hl, hr1, hr2, hp⟩ := try2 rfl
    rw [hres]
    simp only []
    have hsent : sentMessages (Effect.log .info "si_received_message" ::
        Effect.log .info "si_starting_analysis" :: effs) = sentMessages effs := by simp
    rw [hsent]
    refine ⟨trivial, hr1, ?_, hp, ?_⟩
    · rw [hr2]
    · intro h0
      rw [hr2] at h0
      simp at h0
  | some e =>
    have hres : SiteIntelligenceRegulatoryComplianceAgent.on_message llm jsonLoads msg =
        (Effect.log .info "si_received_message" ::
         Effect.log .info "si_starting_analysis" ::
           (effs ++ si_except e (pyDictGet d "project_id" .vNone)), none) := by
      simp [SiteIntelligenceRegulatoryComplianceAgent.on_message, hty, hrecv, htask, hdata,
        vEqStr, htry]
    have ha := try1 (by simp)
    rw [hres]
    simp only []
    have hsent : sentMessages (Effect.log .info "si_received_message" ::
        Effect.log .info "si_starting_analysis" ::
          (effs ++ si_except e (pyDictGet d "project_id" .vNone))) =
        sentMessages (si_except e (pyDictGet d "project_id" .vNone)) := by
      simp [ha]
    rw [hsent]
    refine ⟨trivial, ?_, ?_, ?_, ?_⟩
    · simp [si_except, send_result_message]
    · simp [si_except, send_result_message]
    · intro m hm
      simp [si_except, send_result_message] at hm
      subst hm
      refine ⟨rfl, fun _ => rfl, fun hreq => ?_⟩
      simp at hreq
    · intro _ m hm
      simp [si_except, send_result_message] at hm
      subst hm
      refine ⟨[("status", Value.vStr "error"),
               ("agent", Value.vStr AgentRoles.SITE_INTELLIGENCE),
               ("details", Value.vStr ("Failed site analysis for "
                 ++ vshow (pyDictGet d "project_id" .vNone) ++ ": " ++ pyErrStr e))], ?_, ?_⟩
      · simp
      · simp

/-- C7 witness: the amended theorem applied to a concrete well-formed
site-analysis REQUEST. -/
theorem c7_site_analysis_messaging_amended_witness :
    ((sentMessages (SiteIntelligenceRegulatoryComplianceAgent.on_message llmContentX
        jsonLoadsNone siGoodMsg).1).filter
       (fun m => decide (m.type = MessageType.result))).length = 1 :=
  (c7_site_analysis_messaging_amended llmContentX jsonLoadsNone siGoodMsg
    [("project_id", .vStr "proj_1"), ("location", .vStr "Downtown, New York"),
     ("project_type", .vStr "residential"), ("initial_requirements", .vDict [])]
    rfl rfl rfl rfl).2.1

/-- C8: for every intake REQUEST whose data dict contains an unhashable value
(as the desired_features list of the API always is) and whose LLM phase parses
to a dict or falls back, the success path raises after the acknowledgment has
been queued: the guarded body ends in the TypeError of the project-id
construction, the handler queues a second response with status error, no
REQUEST is forwarded to the Site Intelligence agent, and on_message still
returns normally. -/
theorem c8_unhashable_data_double_put (llm : String → GenOutcome)
    (jsonLoads : String → Option Value) (hashFS : List (String × Value) → Int)
    (msg : Message) (cd : List (String × Value))
    (hty : msg.type = MessageType.request)
    (hrecv : msg.receiver_id = AgentRoles.CLIENT_ENGAGEMENT)
    (htask : pyDictGet msg.payload "task" .vNone = .vStr ce_recognized_task)
    (hdata : pyDictGet msg.payload "data" (.vDict []) = .vDict cd)
    (hunhash : List.all cd (fun kv => hashable kv.2) = false)
    (hphase : jsonLoads (LLMApi.generate_text llm (ce_prompt (.vDict cd))) = none ∨
              ∃ gk, jsonLoads (LLMApi.generate_text llm (ce_prompt (.vDict cd))) =
                some (.vDict gk)) :
    respStatuses (StrategicClientEngagementAgent.on_message llm jsonLoads hashFS msg).1 =
      [Value.vStr "processing_initiated", Value.vStr "error"] ∧
    sentMessages (StrategicClientEngagementAgent.on_message llm jsonLoads hashFS msg).1 = [] ∧
    (ce_try llm jsonLoads hashFS cd msg.sender_id).2 = some PyErr.typeError ∧
    (StrategicClientEngagementAgent.on_message llm jsonLoads hashFS msg).2 = none := by
  obtain ⟨h1, _, _, _, _, _, _, _, h9⟩ :=
    ce_master llm jsonLoads hashFS msg cd hty hrecv htask hdata
  obtain ⟨ha, hb, hc⟩ := h9 hunhash hphase
  exact ⟨ha, hb, hc, h1⟩

/-- C8 witness: the theorem applied to the intake REQUEST exactly as the
/client_inquiry endpoint builds it. -/
theorem c8_unhashable_data_double_put_witness :
    respStatuses (StrategicClientEngagementAgent.on_message llmContentX jsonLoadsNone hashConst
        ceApiIntakeMsg).1 = [Value.vStr "processing_initiated", Value.vStr "error"] :=
  (c8_unhashable_data_double_put llmContentX jsonLoadsNone hashConst ceApiIntakeMsg
    [("project_type", .vStr "residential"), ("client_name", .vStr "Acme"),
     ("budget_range", .vStr "100k-200k"), ("location", .vStr "Suburban Area, London"),
     ("desired_features", .vList [.vStr "garden", .vStr "garage"]),
     ("initial_ideas_url", .vNone)]
    rfl rfl rfl rfl (by decide) (Or.inl rfl)).1

/-- C9: every REQUEST the Strategic Client Engagement Agent forwards carries
as original_sender_id the sender_id of the incoming envelope, whatever
original_sender_id key the incoming payload holds; in particular, when the
envelope sender is the agent itself (the API entry point sends the intake to
itself with the fastapi trace anchor in the payload), the forwarded
original_sender_id is the agent id, never the fastapi trace anchor. -/
theorem c9_forwards_envelope_sender (llm : String → GenOutcome)
    (jsonLoads : String → Option Value) (hashFS : List (String × Value) → Int)
    (msg : Message) (cd : List (String × Value))
    (hty : msg.type = MessageType.request)
    (hrecv : msg.receiver_id = AgentRoles.CLIENT_ENGAGEMENT)
    (htask : pyDictGet msg.payload "task" .vNone = .vStr ce_recognized_task)
    (hdata : pyDictGet msg.payload "data" (.vDict []) = .vDict cd)
    (hs : msg.sender_id ≠ "") :
    (∀ m ∈ sentMessages (StrategicClientEngagementAgent.on_message llm jsonLoads hashFS msg).1,
       pyDictGet m.payload "original_sender_id" .vNone = .vStr msg.sender_id) ∧
    (msg.sender_id = AgentRoles.CLIENT_ENGAGEMENT →
       ∀ m ∈ sentMessages (StrategicClientEngagementAgent.on_message llm jsonLoads hashFS msg).1,
         pyDictGet m.payload "original_sender_id" .vNone = .vStr AgentRoles.CLIENT_ENGAGEMENT ∧
         pyDictGet m.payload "original_sender_id" .vNone ≠
           .vStr "fastapi_client_inquiry_endpoint") := by
  obtain ⟨_, _, _, _, _, h6, _, _, _⟩ :=
    ce_master llm jsonLoads hashFS msg cd hty hrecv htask hdata
  constructor
  · exact fun m hm => (h6 m hm).2.2.2 hs
  · intro hsid m hm
    have ho := (h6 m hm).2.2.2 hs
    rw [hsid] at ho
    refine ⟨ho, ?_⟩
    rw [ho]
    intro hcontra
    have : AgentRoles.CLIENT_ENGAGEMENT = "fastapi_client_inquiry_endpoint" := by
      injection hcontra
    exact absurd this (by decide)

/-- C9 witness: the theorem applied to a self-sent intake whose payload
carries the fastapi trace anchor. -/
theorem c9_forwards_envelope_sender_witness :
    ceHashableIntakeMsg.sender_id = AgentRoles.CLIENT_ENGAGEMENT ∧
    ∀ m ∈ sentMessages (StrategicClientEngagementAgent.on_message llmContentX jsonLoadsNone
        hashConst ceHashableIntakeMsg).1,
      pyDictGet m.payload "original_sender_id" .vNone = .vStr AgentRoles.CLIENT_ENGAGEMENT ∧
      pyDictGet m.payload "original_sender_id" .vNone ≠ .vStr "fastapi_client_inquiry_endpoint" :=
  ⟨rfl, (c9_forwards_envelope_sender llmContentX jsonLoadsNone hashConst ceHashableIntakeMsg
      [("client_name", Value.vStr "Acme"), ("location", Value.vStr "X")]
      rfl rfl rfl rfl (by decide)).2 rfl⟩

/-- C10: generate_text is total, and on an internal exception it returns the
string beginning with the Error-space prefix, which does not begin with the
Error-colon prefix the /generate_text endpoint tests, so the exception-path
failure is returned to the HTTP caller as a successful generated_text body
instead of an HTTP 500. -/
theorem c10_generate_text_error_prefix_mismatch (llm : String → GenOutcome)
    (prompt_data : List (String × String)) (kv : String × String) (e : String)
    (hfind : prompt_data.find? (fun p => p.1 == "prompt") = some kv)
    (hne : kv.2 ≠ "")
    (hexc : llm kv.2 = .exc e) :
    LLMApi.generate_text llm kv.2 = "Error generating text: " ++ e ∧
    pyStartswith (LLMApi.generate_text llm kv.2) "Error generating text:" = true ∧
    pyStartswith (LLMApi.generate_text llm kv.2) "Error:" = false ∧
    generate_text_endpoint llm prompt_data =
      .ok [("generated_text", .vStr ("Error generating text: " ++ e))] := by
  have hgen : LLMApi.generate_text llm kv.2 = "Error generating text: " ++ e := by
    simp [LLMApi.generate_text, hexc]
  have hb : (kv.2 == "") = false := by simp [hne]
  have hpf : pyStartswith ("Error generating text: " ++ e) "Error:" = false := rfl
  refine ⟨hgen, ?_, ?_, ?_⟩
  · rw [hgen]
    rfl
  · rw [hgen]
    exact hpf
  · simp only [generate_text_endpoint, hfind, hb, hgen, hpf]
    simp

/-- C10 witness: the theorem applied to a concrete raising LLM oracle. -/
theorem c10_generate_text_error_prefix_mismatch_witness :
    generate_text_endpoint llmRaise [("prompt", "hi")] =
      .ok [("generated_text", .vStr ("Error generating text: " ++ "boom"))] :=
  (c10_generate_text_error_prefix_mismatch llmRaise [("prompt", "hi")] ("prompt", "hi") "boom"
    rfl (by decide) rfl).2.2.2
